import Mathlib

/-!
Shallow embedding of the react-tshirt-builder core in Lean 4.

Numbers are modelled by `ℚ` (the idealisation of JavaScript arithmetic on the
small, exactly-representable values these computations use).  The data model
follows `src/types` (as exported through the dist declaration bundle), the
upload pipeline follows `src/hooks/useImageUpload.ts`, the multi-view
container follows `src/components/TShirtBuilder.tsx`, and the responsive
scaling helpers follow `src/components/TShirtBuilder.tsx` and
`src/hooks/useResponsive.ts`.
-/

namespace TShirt

/-- Position in the view's logical coordinate space (`interface Position`). -/
structure Position where
  x : ℚ
  y : ℚ
deriving DecidableEq

/-- Size of an image rectangle (`interface Size`). -/
structure Size where
  width : ℚ
  height : ℚ
deriving DecidableEq

/-- Transform of an image (`interface ImageTransform`). -/
structure ImageTransform where
  position : Position
  size : Size
  rotation : ℚ
deriving DecidableEq

/-- Bounding box (`interface BoundingBox`). -/
structure BoundingBox where
  minX : ℚ
  minY : ℚ
  maxX : ℚ
  maxY : ℚ
deriving DecidableEq

/-- Editor configuration (`interface EditorConfig`); optional TS fields are
`Option`s here. -/
structure EditorConfig where
  width : ℚ
  height : ℚ
  printableArea : Option BoundingBox := none
  minImageSize : Option ℚ := none
  allowRotation : Option Bool := none
  exportScale : Option ℚ := none
  acceptedFileTypes : Option (List String) := none
  maxFileSize : Option ℚ := none
deriving DecidableEq

/-- An uploaded image entity (`interface ImageData`). -/
structure ImageData where
  id : String
  src : String
  naturalWidth : ℚ
  naturalHeight : ℚ
  transform : ImageTransform
deriving DecidableEq

/-- `DEFAULT_ACCEPTED_TYPES` from `useImageUpload.ts`. -/
def DEFAULT_ACCEPTED_TYPES : List String :=
  ["image/png", "image/jpeg", "image/webp", "image/gif"]

/-- `DEFAULT_MAX_FILE_SIZE` from `useImageUpload.ts` (10MB). -/
def DEFAULT_MAX_FILE_SIZE : ℚ := 10 * 1024 * 1024

/-- `DEFAULT_CONFIG` from `TShirtBuilder.tsx`. -/
def DEFAULT_CONFIG : EditorConfig where
  width := 400
  height := 500
  minImageSize := some 20
  allowRotation := some false
  acceptedFileTypes := some ["image/png", "image/jpeg", "image/webp", "image/gif"]
  maxFileSize := some (10 * 1024 * 1024)

/-- JavaScript `Math.round`: round half toward positive infinity. -/
def jsRound (q : ℚ) : ℤ := Int.floor (q + 1/2)

/-- `config.acceptedFileTypes || DEFAULT_ACCEPTED_TYPES` (an array is always
truthy in JS, so only an absent field falls back). -/
def acceptedTypesOf (config : EditorConfig) : List String :=
  config.acceptedFileTypes.getD DEFAULT_ACCEPTED_TYPES

/-- `config.maxFileSize || DEFAULT_MAX_FILE_SIZE` (`0` is falsy in JS and also
falls back). -/
def maxFileSizeOf (config : EditorConfig) : ℚ :=
  match config.maxFileSize with
  | none => DEFAULT_MAX_FILE_SIZE
  | some m => if m = 0 then DEFAULT_MAX_FILE_SIZE else m

/-- The minimum image size; `DEFAULT_CONFIG` supplies 20 when the host gives
none. -/
def minImageSizeOf (config : EditorConfig) : ℚ :=
  config.minImageSize.getD 20

/-- `config.printableArea || { minX: 0, minY: 0, maxX: config.width, maxY:
config.height }` from `processFile` in `useImageUpload.ts`. -/
def resolvedPrintableArea (config : EditorConfig) : BoundingBox :=
  config.printableArea.getD { minX := 0, minY := 0, maxX := config.width, maxY := config.height }

/-- `printableArea.maxX - printableArea.minX` in `processFile`. -/
def areaWidthOf (config : EditorConfig) : ℚ :=
  (resolvedPrintableArea config).maxX - (resolvedPrintableArea config).minX

/-- `printableArea.maxY - printableArea.minY` in `processFile`. -/
def areaHeightOf (config : EditorConfig) : ℚ :=
  (resolvedPrintableArea config).maxY - (resolvedPrintableArea config).minY

/-- `Math.min(areaWidth, areaHeight) * 0.6` in `processFile`. -/
def targetSizeOf (config : EditorConfig) : ℚ :=
  min (areaWidthOf config) (areaHeightOf config) * (6/10)

/-- The initial transform computed inside `img.onload` of `processFile`
(`useImageUpload.ts` lines 87-123): fit to 60% of the printable area's
smaller dimension preserving aspect ratio, centered in the printable area. -/
def computeInitialTransform (config : EditorConfig) (naturalWidth naturalHeight : ℚ) :
    ImageTransform :=
  let printableArea := resolvedPrintableArea config
  let areaWidth := areaWidthOf config
  let areaHeight := areaHeightOf config
  let aspectRatio := naturalWidth / naturalHeight
  let targetSize := targetSizeOf config
  let width := if 1 < aspectRatio then targetSize else targetSize * aspectRatio
  let height := if 1 < aspectRatio then targetSize / aspectRatio else targetSize
  let x := printableArea.minX + (areaWidth - width) / 2
  let y := printableArea.minY + (areaHeight - height) / 2
  { position := { x := x, y := y }, size := { width := width, height := height }, rotation := 0 }

/-- A file handed to `processFile`: its MIME type and byte size. -/
structure UploadFile where
  type : String
  size : ℚ
deriving DecidableEq

/-- Outcome of the `FileReader` read (`reader.onload` vs `reader.onerror`). -/
inductive ReadOutcome where
  | success (src : String)
  | failure
deriving DecidableEq

/-- Outcome of the image decode (`img.onload` with natural dimensions vs
`img.onerror`). -/
inductive DecodeOutcome where
  | success (naturalWidth naturalHeight : ℚ)
  | failure
deriving DecidableEq

/-- The externally observable outcome of `processFile`: either `onError` is
invoked with a message, or `onImageLoad` is invoked with a new entity. -/
inductive UploadResult where
  | rejected (message : String)
  | loaded (image : ImageData)
deriving DecidableEq

/-- JavaScript `String.prototype.startsWith`: the string begins with the given
search string. -/
def jsStartsWith (s search : String) : Bool :=
  search.data.isPrefixOf s.data

/-- The type check of `processFile`:
`file.type.startsWith('image/') || acceptedTypes.includes(file.type)`. -/
def isImageFile (config : EditorConfig) (file : UploadFile) : Bool :=
  jsStartsWith file.type "image/" || (acceptedTypesOf config).contains file.type

/-- Error message for an invalid file type in `processFile`. -/
def typeErrorMessage (config : EditorConfig) : String :=
  "Невалиден тип файл. Позволени: " ++ String.intercalate ", " (acceptedTypesOf config)

/-- Error message for an oversized file in `processFile`. -/
def sizeErrorMessage (config : EditorConfig) : String :=
  "Файлът е твърде голям. Максимален размер: " ++
    toString (jsRound (maxFileSizeOf config / 1024 / 1024)) ++ "MB"

/-- Error message of `reader.onerror` in `processFile`. -/
def readErrorMessage : String := "Грешка при четене на файла"

/-- Error message of `img.onerror` in `processFile`. -/
def decodeErrorMessage : String := "Грешка при зареждане на изображението"

/-- `processFile` from `useImageUpload.ts`, with the asynchronous read and
decode steps supplied as explicit outcomes and the `Math.random`-derived id
supplied as `freshId`. -/
def processFile (config : EditorConfig) (file : UploadFile) (freshId : String)
    (read : ReadOutcome) (decode : DecodeOutcome) : UploadResult :=
  if !isImageFile config file then
    UploadResult.rejected (typeErrorMessage config)
  else if maxFileSizeOf config < file.size then
    UploadResult.rejected (sizeErrorMessage config)
  else
    match read with
    | ReadOutcome.failure => UploadResult.rejected readErrorMessage
    | ReadOutcome.success src =>
      match decode with
      | DecodeOutcome.failure => UploadResult.rejected decodeErrorMessage
      | DecodeOutcome.success naturalWidth naturalHeight =>
        UploadResult.loaded
          { id := freshId
            src := src
            naturalWidth := naturalWidth
            naturalHeight := naturalHeight
            transform := computeInitialTransform config naturalWidth naturalHeight }

/-- The two views (`type TShirtView`). -/
inductive TShirtView where
  | front
  | back
deriving DecidableEq

/-- The per-view collections (`interface ViewImages`). -/
structure ViewImages where
  front : List ImageData
  back : List ImageData
deriving DecidableEq

/-- Read the collection of a view (`viewImages[currentView]`). -/
def getCollection (vi : ViewImages) : TShirtView → List ImageData
  | TShirtView.front => vi.front
  | TShirtView.back => vi.back

/-- Write the collection of a view (`{ ...prev, [currentView]: newImages }`). -/
def setCollection (vi : ViewImages) : TShirtView → List ImageData → ViewImages
  | TShirtView.front, imgs => { vi with front := imgs }
  | TShirtView.back, imgs => { vi with back := imgs }

/-- The view that is not the given one. -/
def otherView : TShirtView → TShirtView
  | TShirtView.front => TShirtView.back
  | TShirtView.back => TShirtView.front

/-- The state held by `TShirtBuilder` that the container claims concern:
`viewImages` and `currentView`. -/
structure EditorState where
  viewImages : ViewImages
  currentView : TShirtView
deriving DecidableEq

/-- The combined change notification delivered to the host's `onChange`:
`onChange?.(updated, currentView)` carries both views' lists and the active
view. -/
structure ChangeNotification where
  viewImages : ViewImages
  activeView : TShirtView
deriving DecidableEq

/-- `handleImagesChange` from `TShirtBuilder.tsx` (lines 226-235): rewrite the
active view's collection and notify the host once.  The second component lists
the `onChange` invocations the call performs. -/
def handleImagesChange (s : EditorState) (newImages : List ImageData) :
    EditorState × List ChangeNotification :=
  let updated := setCollection s.viewImages s.currentView newImages
  ({ s with viewImages := updated },
   [{ viewImages := updated, activeView := s.currentView }])

/-- `handleImageLoad` from `TShirtBuilder.tsx` (lines 237-248): append the new
entity to the active view's collection and notify the host once. -/
def handleImageLoad (s : EditorState) (newImageData : ImageData) :
    EditorState × List ChangeNotification :=
  let newImages := getCollection s.viewImages s.currentView ++ [newImageData]
  let updated := setCollection s.viewImages s.currentView newImages
  ({ s with viewImages := updated },
   [{ viewImages := updated, activeView := s.currentView }])

/-- The view switch as wired in `TShirtBuilder.tsx`
(`onViewChange={setCurrentView}`): it only replaces `currentView`, touches no
collection, and performs no `onChange` invocation. -/
def handleViewChange (s : EditorState) (view : TShirtView) :
    EditorState × List ChangeNotification :=
  ({ s with currentView := view }, [])

/-- Delivery of a `processFile` outcome into the container: a rejected upload
only reports the error (`onError={setError}`), a loaded image goes through
`handleImageLoad`. -/
def completeUpload (s : EditorState) : UploadResult → EditorState × List ChangeNotification
  | UploadResult.rejected _ => (s, [])
  | UploadResult.loaded img => handleImageLoad s img

/-- Selection state of the transform engine together with the active view. -/
structure SelectionState where
  selectedId : Option String
  activeView : TShirtView
deriving DecidableEq

/-- `selectImage(imageId: string | null)` of the transform engine: sets the
selection. -/
def selectImage (s : SelectionState) (imageId : Option String) : SelectionState :=
  { s with selectedId := imageId }

/-- Modelled from the spec: the selection behavior of a view switch.  The
`useImageTransform` implementation is absent from `src` (only
`dist/hooks/useImageTransform.d.ts` declares it); spec §4.3 says
`setActiveView(view)` swaps which collection the Transform Engine reads/writes
and clears selection. -/
def setActiveView (s : SelectionState) (view : TShirtView) : SelectionState :=
  { selectedId := none, activeView := view }

/-- Result record of the responsive scaling helpers (`ScaledDimensions`). -/
structure ScaledDimensions where
  width : ℚ
  height : ℚ
  scale : ℚ
deriving DecidableEq

/-- `calculateScaledDimensions` from `TShirtBuilder.tsx` (lines 41-66): fit
width first, then constrain by height; round the returned pixel dimensions. -/
def calculateScaledDimensions (originalWidth originalHeight containerWidth maxHeight : ℚ) :
    ScaledDimensions :=
  let aspectRatio := originalWidth / originalHeight
  let width0 := min originalWidth containerWidth
  let height0 := width0 / aspectRatio
  let width := if maxHeight < height0 then maxHeight * aspectRatio else width0
  let height := if maxHeight < height0 then maxHeight else height0
  let scale := width / originalWidth
  { width := (jsRound width : ℚ), height := (jsRound height : ℚ), scale := scale }

/-- `useScaledDimensions` from `useResponsive.ts` (lines 151-173): scale by
`min(maxWidth/originalWidth, maxHeight/originalHeight, 1)`. -/
def useScaledDimensions (originalWidth originalHeight maxWidth maxHeight : ℚ)
    (enabled : Bool) : ScaledDimensions :=
  if !enabled then
    { width := originalWidth, height := originalHeight, scale := 1 }
  else
    let widthScale := maxWidth / originalWidth
    let heightScale := maxHeight / originalHeight
    let scale := min (min widthScale heightScale) 1
    { width := (jsRound (originalWidth * scale) : ℚ)
      height := (jsRound (originalHeight * scale) : ℚ)
      scale := scale }

theorem resolvedPrintableArea_default :
    resolvedPrintableArea DEFAULT_CONFIG =
      { minX := 0, minY := 0, maxX := 400, maxY := 500 } := rfl

theorem targetSize_default : targetSizeOf DEFAULT_CONFIG = 240 := by
  rw [targetSizeOf, areaWidthOf, areaHeightOf, resolvedPrintableArea_default]
  norm_num [min_def]

theorem maxFileSize_default : maxFileSizeOf DEFAULT_CONFIG = 10 * 1024 * 1024 := by
  simp only [maxFileSizeOf, DEFAULT_CONFIG]
  norm_num

theorem computeInitialTransform_default_800x600 :
    computeInitialTransform DEFAULT_CONFIG 800 600 =
      { position := { x := 80, y := 160 }
        size := { width := 240, height := 180 }
        rotation := 0 } := by
  norm_num [computeInitialTransform, resolvedPrintableArea_default, targetSize_default,
    areaWidthOf, areaHeightOf, ImageTransform.mk.injEq, Position.mk.injEq, Size.mk.injEq]

theorem computeInitialTransform_default_1000x1 :
    computeInitialTransform DEFAULT_CONFIG 1000 1 =
      { position := { x := 80, y := 6247/25 }
        size := { width := 240, height := 6/25 }
        rotation := 0 } := by
  norm_num [computeInitialTransform, resolvedPrintableArea_default, targetSize_default,
    areaWidthOf, areaHeightOf, ImageTransform.mk.injEq, Position.mk.injEq, Size.mk.injEq]

theorem computeInitialTransform_default_2x2 :
    computeInitialTransform DEFAULT_CONFIG 2 2 =
      { position := { x := 80, y := 130 }
        size := { width := 240, height := 240 }
        rotation := 0 } := by
  norm_num [computeInitialTransform, resolvedPrintableArea_default, targetSize_default,
    areaWidthOf, areaHeightOf, ImageTransform.mk.injEq, Position.mk.injEq, Size.mk.injEq]

theorem isImageFile_default_png :
    isImageFile DEFAULT_CONFIG { type := "image/png", size := 100 } = true := by decide

theorem processFile_default_png_1000x1 :
    processFile DEFAULT_CONFIG { type := "image/png", size := 100 } "id0"
        (ReadOutcome.success "data") (DecodeOutcome.success 1000 1) =
      UploadResult.loaded
        { id := "id0", src := "data", naturalWidth := 1000, naturalHeight := 1
          transform := { position := { x := 80, y := 6247/25 }
                         size := { width := 240, height := 6/25 }, rotation := 0 } } := by
  have hsz : ¬ (maxFileSizeOf DEFAULT_CONFIG < (100 : ℚ)) := by
    rw [maxFileSize_default]; norm_num
  simp only [processFile, isImageFile_default_png, Bool.not_true, Bool.false_eq_true,
    if_false, if_neg hsz, computeInitialTransform_default_1000x1]

theorem getCollection_setCollection_self (vi : ViewImages) (v : TShirtView)
    (l : List ImageData) : getCollection (setCollection vi v l) v = l := by
  cases v <;> rfl

theorem getCollection_setCollection_other (vi : ViewImages) (v : TShirtView)
    (l : List ImageData) :
    getCollection (setCollection vi v l) (otherView v) = getCollection vi (otherView v) := by
  cases v <;> rfl

/-- C1: with the default configuration (canvas 400×500, printable area the full
canvas, minImageSize 20) an 800×600 image is NOT given a transform of size
approximately 300×225 at approximately (50, 137.5): the code scales to 60% of
the SMALLER canvas dimension (min(400,500) = 400, so target 240), producing
size 240×180 at position (80, 160), which is not within any rounding tolerance
of the claimed values. -/
theorem upload_default_800x600_size_not_300x225 :
    computeInitialTransform DEFAULT_CONFIG 800 600 =
      { position := { x := 80, y := 160 }
        size := { width := 240, height := 180 }
        rotation := 0 } ∧
    ¬ (|(computeInitialTransform DEFAULT_CONFIG 800 600).size.width - 300| ≤ 10 ∧
       |(computeInitialTransform DEFAULT_CONFIG 800 600).size.height - 225| ≤ 10) := by
  refine ⟨computeInitialTransform_default_800x600, ?_⟩
  rw [computeInitialTransform_default_800x600]
  norm_num [abs_le]

/-- C1 (amended): with the default configuration, uploading an 800×600 image
produces an initial transform of size exactly 240×180 (60% of min(400,500) =
240, fit to the 4:3 aspect ratio) centered at position (80, 160). -/
theorem upload_default_800x600_initial_transform :
    computeInitialTransform DEFAULT_CONFIG 800 600 =
      { position := { x := 80, y := 160 }
        size := { width := 240, height := 180 }
        rotation := 0 } :=
  computeInitialTransform_default_800x600

theorem computeInitialTransform_width (config : EditorConfig) (nw nh : ℚ) :
    (computeInitialTransform config nw nh).size.width =
      if 1 < nw / nh then targetSizeOf config else targetSizeOf config * (nw / nh) := rfl

theorem computeInitialTransform_height (config : EditorConfig) (nw nh : ℚ) :
    (computeInitialTransform config nw nh).size.height =
      if 1 < nw / nh then targetSizeOf config / (nw / nh) else targetSizeOf config := rfl

theorem computeInitialTransform_x (config : EditorConfig) (nw nh : ℚ) :
    (computeInitialTransform config nw nh).position.x =
      (resolvedPrintableArea config).minX +
        (areaWidthOf config - (computeInitialTransform config nw nh).size.width) / 2 := rfl

theorem computeInitialTransform_y (config : EditorConfig) (nw nh : ℚ) :
    (computeInitialTransform config nw nh).position.y =
      (resolvedPrintableArea config).minY +
        (areaHeightOf config - (computeInitialTransform config nw nh).size.height) / 2 := rfl

theorem computeInitialTransform_rotation (config : EditorConfig) (nw nh : ℚ) :
    (computeInitialTransform config nw nh).rotation = 0 := rfl

theorem targetSizeOf_pos (config : EditorConfig) (haw : 0 < areaWidthOf config)
    (hah : 0 < areaHeightOf config) : 0 < targetSizeOf config := by
  rw [targetSizeOf]
  exact mul_pos (lt_min haw hah) (by norm_num)

/-- C2 (counterexample): the upload pipeline applies no minimum-size floor, so
an image with an extreme natural aspect ratio (1000×1) receives an initial
transform whose height 0.24 is below the default minImageSize of 20, and this
entity is handed to `onImageLoad` as-is. -/
theorem upload_extreme_aspect_below_min_size :
    ∃ img : ImageData,
      processFile DEFAULT_CONFIG { type := "image/png", size := 100 } "id0"
          (ReadOutcome.success "data") (DecodeOutcome.success 1000 1) =
        UploadResult.loaded img ∧
      img.transform.size.height < minImageSizeOf DEFAULT_CONFIG := by
  refine ⟨_, processFile_default_png_1000x1, ?_⟩
  norm_num [minImageSizeOf, DEFAULT_CONFIG]

/-- C2 (amended): the initial transform of an uploaded image satisfies the
minimum-size invariant exactly when the natural aspect ratio is moderate
relative to the printable area: whenever `minImageSize ≤ targetSize * min(w/h,
h/w)` (with `targetSize` 60% of the printable area's smaller dimension), both
sides of the initial transform are at least `minImageSize`; the code performs
no floor, so more extreme aspect ratios violate the invariant. -/
theorem upload_min_size_when_aspect_moderate (config : EditorConfig) (nw nh : ℚ)
    (hnw : 0 < nw) (hnh : 0 < nh)
    (haw : 0 < areaWidthOf config) (hah : 0 < areaHeightOf config)
    (hmin : minImageSizeOf config ≤ targetSizeOf config * min (nw / nh) (nh / nw)) :
    minImageSizeOf config ≤ (computeInitialTransform config nw nh).size.width ∧
    minImageSizeOf config ≤ (computeInitialTransform config nw nh).size.height := by
  have ht := targetSizeOf_pos config haw hah
  rw [computeInitialTransform_width, computeInitialTransform_height]
  by_cases har : 1 < nw / nh
  · have hlt : nh / nw < 1 := by
      rw [div_lt_one hnw]
      exact (one_lt_div hnh).mp har
    have hminr : min (nw / nh) (nh / nw) = nh / nw :=
      min_eq_right (le_of_lt (hlt.trans har))
    rw [hminr] at hmin
    have hdiv : targetSizeOf config / (nw / nh) = targetSizeOf config * (nh / nw) := by
      rw [div_div_eq_mul_div, mul_div_assoc]
    rw [if_pos har, if_pos har, hdiv]
    constructor
    · calc minImageSizeOf config ≤ targetSizeOf config * (nh / nw) := hmin
        _ ≤ targetSizeOf config * 1 :=
            mul_le_mul_of_nonneg_left (le_of_lt hlt) (le_of_lt ht)
        _ = targetSizeOf config := mul_one _
    · exact hmin
  · have hle : nw / nh ≤ 1 := not_lt.mp har
    have hminl : min (nw / nh) (nh / nw) = nw / nh := by
      refine min_eq_left (hle.trans ?_)
      exact (one_le_div hnw).mpr ((div_le_one hnh).mp hle)
    rw [hminl] at hmin
    rw [if_neg har, if_neg har]
    constructor
    · exact hmin
    · calc minImageSizeOf config ≤ targetSizeOf config * (nw / nh) := hmin
        _ ≤ targetSizeOf config * 1 := mul_le_mul_of_nonneg_left hle (le_of_lt ht)
        _ = targetSizeOf config := mul_one _

/-- Witness for the amended C2 theorem at the default configuration and a
4:3 image. -/
theorem upload_min_size_when_aspect_moderate_witness :
    minImageSizeOf DEFAULT_CONFIG ≤ (computeInitialTransform DEFAULT_CONFIG 800 600).size.width ∧
    minImageSizeOf DEFAULT_CONFIG ≤
      (computeInitialTransform DEFAULT_CONFIG 800 600).size.height :=
  upload_min_size_when_aspect_moderate DEFAULT_CONFIG 800 600 (by norm_num) (by norm_num)
    (by rw [areaWidthOf, resolvedPrintableArea_default]; norm_num)
    (by rw [areaHeightOf, resolvedPrintableArea_default]; norm_num)
    (by rw [targetSize_default]
        norm_num [minImageSizeOf, DEFAULT_CONFIG, min_def])

/-- C4 (counterexample): a file of MIME type "image/bmp" is not in the default
acceptedFileTypes set, yet the pipeline does not reject it: the type check
also accepts anything whose type starts with "image/", so the file proceeds
through read and decode and `onImageLoad` is invoked with a new entity. -/
theorem bmp_type_not_accepted_but_loaded :
    (acceptedTypesOf DEFAULT_CONFIG).contains "image/bmp" = false ∧
    processFile DEFAULT_CONFIG { type := "image/bmp", size := 100 } "id1"
        (ReadOutcome.success "data") (DecodeOutcome.success 2 2) =
      UploadResult.loaded
        { id := "id1", src := "data", naturalWidth := 2, naturalHeight := 2
          transform := { position := { x := 80, y := 130 }
                         size := { width := 240, height := 240 }, rotation := 0 } } := by
  constructor
  · decide
  · have htype : isImageFile DEFAULT_CONFIG { type := "image/bmp", size := 100 } = true := by
      decide
    have hsz : ¬ (maxFileSizeOf DEFAULT_CONFIG < (100 : ℚ)) := by
      rw [maxFileSize_default]; norm_num
    simp only [processFile, htype, Bool.not_true, Bool.false_eq_true, if_false, if_neg hsz,
      computeInitialTransform_default_2x2]

/-- C4 (amended): the pipeline rejects exactly the files whose MIME type
neither starts with "image/" nor is in the configured acceptedFileTypes: for
such a file the error callback receives the type-error message and
`onImageLoad` is never invoked (a type like "image/bmp", although not in the
accepted set, passes the type check). -/
theorem nonimage_unaccepted_type_rejected (config : EditorConfig) (file : UploadFile)
    (freshId : String) (read : ReadOutcome) (decode : DecodeOutcome)
    (h : isImageFile config file = false) :
    processFile config file freshId read decode =
      UploadResult.rejected (typeErrorMessage config) ∧
    ∀ img, processFile config file freshId read decode ≠ UploadResult.loaded img := by
  have hp : processFile config file freshId read decode =
      UploadResult.rejected (typeErrorMessage config) := by
    simp only [processFile, h, Bool.not_false, if_true]
  refine ⟨hp, fun img hcontra => ?_⟩
  rw [hp] at hcontra
  exact UploadResult.noConfusion hcontra

/-- Witness for the amended C4 theorem: a "text/plain" file is rejected. -/
theorem nonimage_unaccepted_type_rejected_witness :
    processFile DEFAULT_CONFIG { type := "text/plain", size := 1 } "w"
        (ReadOutcome.success "d") (DecodeOutcome.success 1 1) =
      UploadResult.rejected (typeErrorMessage DEFAULT_CONFIG) ∧
    ∀ img, processFile DEFAULT_CONFIG { type := "text/plain", size := 1 } "w"
        (ReadOutcome.success "d") (DecodeOutcome.success 1 1) ≠ UploadResult.loaded img :=
  nonimage_unaccepted_type_rejected DEFAULT_CONFIG { type := "text/plain", size := 1 }
    "w" (ReadOutcome.success "d") (DecodeOutcome.success 1 1) (by decide)

/-- C6: for every uploaded image with positive natural dimensions and a
nondegenerate printable area (defaulting to the full canvas), the computed
initial transform preserves the natural aspect ratio, its larger side equals
60% of the printable area's smaller dimension, its center coincides with the
printable area's center, and its rotation is 0. -/
theorem upload_initial_transform_centered_and_scaled (config : EditorConfig) (nw nh : ℚ)
    (hnw : 0 < nw) (hnh : 0 < nh)
    (haw : 0 < areaWidthOf config) (hah : 0 < areaHeightOf config) :
    (computeInitialTransform config nw nh).size.height * nw =
      (computeInitialTransform config nw nh).size.width * nh ∧
    max (computeInitialTransform config nw nh).size.width
        (computeInitialTransform config nw nh).size.height =
      min (areaWidthOf config) (areaHeightOf config) * (6/10) ∧
    (computeInitialTransform config nw nh).position.x +
        (computeInitialTransform config nw nh).size.width / 2 =
      (resolvedPrintableArea config).minX + areaWidthOf config / 2 ∧
    (computeInitialTransform config nw nh).position.y +
        (computeInitialTransform config nw nh).size.height / 2 =
      (resolvedPrintableArea config).minY + areaHeightOf config / 2 ∧
    (computeInitialTransform config nw nh).rotation = 0 := by
  have ht := targetSizeOf_pos config haw hah
  have hnw' := ne_of_gt hnw
  have hnh' := ne_of_gt hnh
  refine ⟨?_, ?_, ?_, ?_, computeInitialTransform_rotation config nw nh⟩
  · rw [computeInitialTransform_width, computeInitialTransform_height]
    by_cases har : 1 < nw / nh
    · rw [if_pos har, if_pos har]
      field_simp [hnw', hnh']
    · rw [if_neg har, if_neg har]
      field_simp [hnw', hnh']
  · rw [computeInitialTransform_width, computeInitialTransform_height]
    by_cases har : 1 < nw / nh
    · rw [if_pos har, if_pos har]
      show max (targetSizeOf config) (targetSizeOf config / (nw / nh)) = targetSizeOf config
      exact max_eq_left (div_le_self (le_of_lt ht) (le_of_lt har))
    · rw [if_neg har, if_neg har]
      show max (targetSizeOf config * (nw / nh)) (targetSizeOf config) = targetSizeOf config
      exact max_eq_right (mul_le_of_le_one_right (le_of_lt ht) (not_lt.mp har))
  · rw [computeInitialTransform_x]
    ring
  · rw [computeInitialTransform_y]
    ring

/-- Witness for the C6 theorem at the default configuration and an 800×600
image. -/
theorem upload_initial_transform_centered_and_scaled_witness :
    (computeInitialTransform DEFAULT_CONFIG 800 600).size.height * 800 =
      (computeInitialTransform DEFAULT_CONFIG 800 600).size.width * 600 ∧
    max (computeInitialTransform DEFAULT_CONFIG 800 600).size.width
        (computeInitialTransform DEFAULT_CONFIG 800 600).size.height =
      min (areaWidthOf DEFAULT_CONFIG) (areaHeightOf DEFAULT_CONFIG) * (6/10) ∧
    (computeInitialTransform DEFAULT_CONFIG 800 600).position.x +
        (computeInitialTransform DEFAULT_CONFIG 800 600).size.width / 2 =
      (resolvedPrintableArea DEFAULT_CONFIG).minX + areaWidthOf DEFAULT_CONFIG / 2 ∧
    (computeInitialTransform DEFAULT_CONFIG 800 600).position.y +
        (computeInitialTransform DEFAULT_CONFIG 800 600).size.height / 2 =
      (resolvedPrintableArea DEFAULT_CONFIG).minY + areaHeightOf DEFAULT_CONFIG / 2 ∧
    (computeInitialTransform DEFAULT_CONFIG 800 600).rotation = 0 :=
  upload_initial_transform_centered_and_scaled DEFAULT_CONFIG 800 600
    (by norm_num) (by norm_num)
    (by rw [areaWidthOf, resolvedPrintableArea_default]; norm_num)
    (by rw [areaHeightOf, resolvedPrintableArea_default]; norm_num)

/-- C3: a selection made in the active view never survives a view switch:
after `setActiveView` the selection is `null`, in particular for the sequence
select-in-front then switch-to-back.  The `useImageTransform` implementation is
not under `src`; the clearing of selection on a view switch is modelled from
spec §4.3. -/
theorem selection_cleared_on_view_switch (s : SelectionState) (id : String)
    (v : TShirtView) :
    (setActiveView (selectImage s (some id)) TShirtView.back).selectedId = none ∧
    (setActiveView s v).selectedId = none := by
  exact ⟨rfl, rfl⟩

/-- C8: appending an uploaded entity or rewriting the active collection leaves
the inactive view's collection unchanged, and switching the active view
preserves both collections. -/
theorem mutations_leave_inactive_view_unchanged (s : EditorState) (img : ImageData)
    (newImages : List ImageData) (v : TShirtView) :
    getCollection (handleImageLoad s img).1.viewImages (otherView s.currentView) =
      getCollection s.viewImages (otherView s.currentView) ∧
    getCollection (handleImagesChange s newImages).1.viewImages (otherView s.currentView) =
      getCollection s.viewImages (otherView s.currentView) ∧
    (handleViewChange s v).1.viewImages = s.viewImages := by
  refine ⟨?_, ?_, rfl⟩ <;>
    simp [handleImageLoad, handleImagesChange, getCollection_setCollection_other]

/-- C9 (counterexample): switching the active view is a mutating call on the
host control surface, yet it triggers no change notification at all (the
claim demands exactly one). -/
theorem view_switch_emits_no_notification :
    (handleViewChange
        { viewImages := { front := [], back := [] }, currentView := TShirtView.front }
        TShirtView.back).2.length ≠ 1 ∧
    (handleViewChange
        { viewImages := { front := [], back := [] }, currentView := TShirtView.front }
        TShirtView.back).2 = [] := by
  exact ⟨by decide, rfl⟩

/-- C9 (amended): completing an upload and rewriting the active collection
each trigger exactly one combined change notification carrying both views'
image lists and the currently active view; switching the active view triggers
none. -/
theorem each_mutation_emits_one_notification (s : EditorState)
    (newImages : List ImageData) (img : ImageData) (v : TShirtView) :
    (handleImagesChange s newImages).2 =
      [{ viewImages := (handleImagesChange s newImages).1.viewImages
         activeView := s.currentView }] ∧
    (handleImageLoad s img).2 =
      [{ viewImages := (handleImageLoad s img).1.viewImages
         activeView := s.currentView }] ∧
    (handleViewChange s v).2 = [] := by
  exact ⟨rfl, rfl, rfl⟩

theorem processFile_default_png_800x600 (freshId src : String) :
    processFile DEFAULT_CONFIG { type := "image/png", size := 100 } freshId
        (ReadOutcome.success src) (DecodeOutcome.success 800 600) =
      UploadResult.loaded
        { id := freshId, src := src, naturalWidth := 800, naturalHeight := 600
          transform := { position := { x := 80, y := 160 }
                         size := { width := 240, height := 180 }, rotation := 0 } } := by
  have hsz : ¬ (maxFileSizeOf DEFAULT_CONFIG < (100 : ℚ)) := by
    rw [maxFileSize_default]; norm_num
  simp only [processFile, isImageFile_default_png, Bool.not_true, Bool.false_eq_true,
    if_false, if_neg hsz, computeInitialTransform_default_800x600]

/-- C5 (counterexample): `generateId` draws from `Math.random` and nothing
checks the drawn id against the collection; when two uploads draw the same
value, the active collection holds two distinct entities with the same id. -/
theorem duplicate_ids_after_equal_random_draws :
    ∃ i1 i2 : ImageData,
      processFile DEFAULT_CONFIG { type := "image/png", size := 100 } "dup"
          (ReadOutcome.success "s1") (DecodeOutcome.success 800 600) =
        UploadResult.loaded i1 ∧
      processFile DEFAULT_CONFIG { type := "image/png", size := 100 } "dup"
          (ReadOutcome.success "s2") (DecodeOutcome.success 800 600) =
        UploadResult.loaded i2 ∧
      getCollection
        (handleImageLoad
          (handleImageLoad
            { viewImages := { front := [], back := [] }, currentView := TShirtView.front }
            i1).1 i2).1.viewImages TShirtView.front = [i1, i2] ∧
      i1 ≠ i2 ∧ i1.id = i2.id := by
  refine ⟨_, _, processFile_default_png_800x600 "dup" "s1",
    processFile_default_png_800x600 "dup" "s2", rfl, ?_, rfl⟩
  intro hcontra
  have hsrc : ("s1" : String) = "s2" := congrArg ImageData.src hcontra
  exact absurd hsrc (by decide)

/-- C5 (amended): ids produced by `generateId` come from `Math.random` with no
deduplication, so uniqueness within a view's collection holds only
conditionally: appending an uploaded entity whose id does not already occur in
the active collection preserves distinctness of the collection's ids. -/
theorem append_fresh_id_preserves_nodup_ids (s : EditorState) (img : ImageData)
    (hfresh : img.id ∉ (getCollection s.viewImages s.currentView).map ImageData.id)
    (hnodup : ((getCollection s.viewImages s.currentView).map ImageData.id).Nodup) :
    ((getCollection (handleImageLoad s img).1.viewImages s.currentView).map
      ImageData.id).Nodup := by
  have hcol : getCollection (handleImageLoad s img).1.viewImages s.currentView =
      getCollection s.viewImages s.currentView ++ [img] := by
    simp only [handleImageLoad]
    exact getCollection_setCollection_self _ _ _
  rw [hcol, List.map_append]
  refine List.Nodup.append hnodup (List.nodup_singleton _) ?_
  intro a ha hb
  rw [List.map_singleton, List.mem_singleton] at hb
  exact hfresh (hb ▸ ha)

/-- Witness for the amended C5 theorem: appending an entity with the fresh id
"b" to a front collection whose only id is "a" keeps the ids distinct. -/
theorem append_fresh_id_preserves_nodup_ids_witness :
    ((getCollection
        (handleImageLoad
          { viewImages :=
              { front := [{ id := "a", src := "sa", naturalWidth := 1, naturalHeight := 1
                            transform := { position := { x := 0, y := 0 }
                                           size := { width := 1, height := 1 }
                                           rotation := 0 } }]
                back := [] }
            currentView := TShirtView.front }
          { id := "b", src := "sb", naturalWidth := 1, naturalHeight := 1
            transform := { position := { x := 0, y := 0 }
                           size := { width := 1, height := 1 }
                           rotation := 0 } }).1.viewImages TShirtView.front).map
      ImageData.id).Nodup :=
  append_fresh_id_preserves_nodup_ids _ _ (by decide) (by decide)

theorem typeErrorMessage_ne_empty (config : EditorConfig) :
    typeErrorMessage config ≠ "" := by
  intro hcontra
  have hl := congrArg String.length hcontra
  rw [typeErrorMessage, String.length_append] at hl
  simp at hl
  exact absurd hl.1 (by decide)

theorem sizeErrorMessage_ne_empty (config : EditorConfig) :
    sizeErrorMessage config ≠ "" := by
  intro hcontra
  have hl := congrArg String.length hcontra
  rw [sizeErrorMessage, String.length_append, String.length_append] at hl
  simp at hl
  exact absurd hl.1.1 (by decide)

/-- C7: on every upload failure path — type check failure, oversized file,
file-read error, or image-decode error — the error callback receives a
nonempty human-readable message, `onImageLoad` is never invoked, and the
container state (in particular both views' collections) is left unchanged with
no change notification. -/
theorem upload_failure_surfaces_error_and_leaves_collections (config : EditorConfig)
    (file : UploadFile) (freshId : String) (read : ReadOutcome) (decode : DecodeOutcome)
    (s : EditorState)
    (h : isImageFile config file = false ∨ maxFileSizeOf config < file.size ∨
         read = ReadOutcome.failure ∨ decode = DecodeOutcome.failure) :
    ∃ msg, processFile config file freshId read decode = UploadResult.rejected msg ∧
      msg ≠ "" ∧
      (∀ img, processFile config file freshId read decode ≠ UploadResult.loaded img) ∧
      (completeUpload s (processFile config file freshId read decode)).1 = s ∧
      (completeUpload s (processFile config file freshId read decode)).2 = [] := by
  have hrej : ∃ msg, processFile config file freshId read decode =
      UploadResult.rejected msg ∧ msg ≠ "" := by
    by_cases h1 : isImageFile config file = true
    · by_cases h2 : maxFileSizeOf config < file.size
      · exact ⟨sizeErrorMessage config, by simp [processFile, h1, h2],
          sizeErrorMessage_ne_empty config⟩
      · rcases h with h | h | h | h
        · rw [h1] at h
          exact absurd h (by decide)
        · exact absurd h h2
        · subst h
          exact ⟨readErrorMessage, by simp [processFile, h1, h2], by decide⟩
        · subst h
          cases read with
          | failure => exact ⟨readErrorMessage, by simp [processFile, h1, h2], by decide⟩
          | success src =>
              exact ⟨decodeErrorMessage, by simp [processFile, h1, h2], by decide⟩
    · have h1' : isImageFile config file = false := by
        cases hx : isImageFile config file
        · rfl
        · exact absurd hx h1
      exact ⟨typeErrorMessage config, by simp [processFile, h1'],
        typeErrorMessage_ne_empty config⟩
  obtain ⟨msg, hmsg, hne⟩ := hrej
  refine ⟨msg, hmsg, hne, ?_, ?_, ?_⟩
  · intro img hcontra
    rw [hmsg] at hcontra
    exact UploadResult.noConfusion hcontra
  · rw [hmsg]
    rfl
  · rw [hmsg]
    rfl

/-- Witness for the C7 theorem: a "text/plain" upload attempt against the
default configuration and an empty editor state. -/
theorem upload_failure_surfaces_error_witness :
    ∃ msg, processFile DEFAULT_CONFIG { type := "text/plain", size := 1 } "w"
        (ReadOutcome.success "d") (DecodeOutcome.success 1 1) = UploadResult.rejected msg ∧
      msg ≠ "" ∧
      (∀ img, processFile DEFAULT_CONFIG { type := "text/plain", size := 1 } "w"
        (ReadOutcome.success "d") (DecodeOutcome.success 1 1) ≠ UploadResult.loaded img) ∧
      (completeUpload { viewImages := { front := [], back := [] }
                        currentView := TShirtView.front }
        (processFile DEFAULT_CONFIG { type := "text/plain", size := 1 } "w"
          (ReadOutcome.success "d") (DecodeOutcome.success 1 1))).1 =
        { viewImages := { front := [], back := [] }, currentView := TShirtView.front } ∧
      (completeUpload { viewImages := { front := [], back := [] }
                        currentView := TShirtView.front }
        (processFile DEFAULT_CONFIG { type := "text/plain", size := 1 } "w"
          (ReadOutcome.success "d") (DecodeOutcome.success 1 1))).2 = [] :=
  upload_failure_surfaces_error_and_leaves_collections DEFAULT_CONFIG
    { type := "text/plain", size := 1 } "w" (ReadOutcome.success "d")
    (DecodeOutcome.success 1 1)
    { viewImages := { front := [], back := [] }, currentView := TShirtView.front }
    (Or.inl (by decide))

/-- C10: for positive original dimensions and positive bounds, both responsive
scaling helpers return a scale factor at most 1 and (up to the final rounding
to whole pixels) dimensions that fit the given bounds and preserve the
original aspect ratio. -/
theorem responsive_scaling_fits_bounds (ow oh cw mh : ℚ)
    (hw : 0 < ow) (hh : 0 < oh) (hcw : 0 < cw) (hmh : 0 < mh) :
    (∃ w h : ℚ,
      calculateScaledDimensions ow oh cw mh =
        { width := (jsRound w : ℚ), height := (jsRound h : ℚ), scale := w / ow } ∧
      w / ow ≤ 1 ∧ w ≤ cw ∧ h ≤ mh ∧ w * oh = h * ow) ∧
    (∃ sc : ℚ,
      useScaledDimensions ow oh cw mh true =
        { width := (jsRound (ow * sc) : ℚ), height := (jsRound (oh * sc) : ℚ), scale := sc } ∧
      sc ≤ 1 ∧ ow * sc ≤ cw ∧ oh * sc ≤ mh ∧ (ow * sc) * oh = (oh * sc) * ow) := by
  have haspect : 0 < ow / oh := div_pos hw hh
  constructor
  · by_cases hcase : mh < min ow cw / (ow / oh)
    · have hwlt : mh * (ow / oh) < min ow cw := (lt_div_iff₀ haspect).mp hcase
      refine ⟨mh * (ow / oh), mh, ?_, ?_, ?_, le_refl mh, ?_⟩
      · simp only [calculateScaledDimensions]
        rw [if_pos hcase, if_pos hcase]
      · exact le_of_lt ((div_lt_one hw).mpr (lt_of_lt_of_le hwlt (min_le_left ow cw)))
      · exact le_of_lt (lt_of_lt_of_le hwlt (min_le_right ow cw))
      · rw [mul_assoc, div_mul_cancel₀ ow (ne_of_gt hh)]
    · refine ⟨min ow cw, min ow cw / (ow / oh), ?_, ?_, min_le_right ow cw,
        not_lt.mp hcase, ?_⟩
      · simp only [calculateScaledDimensions]
        rw [if_neg hcase, if_neg hcase]
      · exact (div_le_one hw).mpr (min_le_left ow cw)
      · rw [div_div_eq_mul_div, div_mul_cancel₀ _ (ne_of_gt hw)]
  · refine ⟨min (min (cw / ow) (mh / oh)) 1, rfl, min_le_right _ 1, ?_, ?_, by ring⟩
    · have hsc : min (min (cw / ow) (mh / oh)) 1 ≤ cw / ow :=
        le_trans (min_le_left _ 1) (min_le_left _ _)
      calc ow * min (min (cw / ow) (mh / oh)) 1 ≤ ow * (cw / ow) :=
            mul_le_mul_of_nonneg_left hsc (le_of_lt hw)
        _ = cw := by rw [mul_comm, div_mul_cancel₀ cw (ne_of_gt hw)]
    · have hsc : min (min (cw / ow) (mh / oh)) 1 ≤ mh / oh :=
        le_trans (min_le_left _ 1) (min_le_right _ _)
      calc oh * min (min (cw / ow) (mh / oh)) 1 ≤ oh * (mh / oh) :=
            mul_le_mul_of_nonneg_left hsc (le_of_lt hh)
        _ = mh := by rw [mul_comm, div_mul_cancel₀ mh (ne_of_gt hh)]

/-- Witness for the C10 theorem at original size 400×500 inside bounds
200×1000. -/
theorem responsive_scaling_fits_bounds_witness :
    (∃ w h : ℚ,
      calculateScaledDimensions 400 500 200 1000 =
        { width := (jsRound w : ℚ), height := (jsRound h : ℚ), scale := w / 400 } ∧
      w / 400 ≤ 1 ∧ w ≤ 200 ∧ h ≤ 1000 ∧ w * 500 = h * 400) ∧
    (∃ sc : ℚ,
      useScaledDimensions 400 500 200 1000 true =
        { width := (jsRound (400 * sc) : ℚ), height := (jsRound (500 * sc) : ℚ)
          scale := sc } ∧
      sc ≤ 1 ∧ 400 * sc ≤ 200 ∧ 500 * sc ≤ 1000 ∧ (400 * sc) * 500 = (500 * sc) * 400) :=
  responsive_scaling_fits_bounds 400 500 200 1000 (by norm_num) (by norm_num)
    (by norm_num) (by norm_num)

end TShirt
